import Mathlib

/-!
Shallow embedding of the dataset caching and query engine of this
repository.  The two server routes that carry the engine are embedded
faithfully:

* the dataset route (cleaning `cleanDataset`, the mtime-gated `loadData`
  cache, and the filter/sort `GET` handler), and
* the statistics route (inline cleaning `loadAndCleanData`, the
  `calculateStatistics` aggregation and its 1-hour TTL cache `GET`).

JavaScript numbers are modelled as rationals (`Rat`); string values that
went through `parseFloat` are carried as `Option Rat`, `none` standing
for `NaN` (an unparsable value).  Where `NaN` or `Infinity` themselves
flow into results (the overall statistics of an empty dataset) the
extended type `JNum` is used.
-/

/-- Result of JavaScript `parseFloat`: `none` models `NaN` (the string
has no numeric prefix), `some q` a finite parsed value. -/
abbrev ParsedNum := Option Rat

/-- JavaScript `parseFloat(s) || 0`: `NaN` (and `0` itself) collapse to `0`. -/
def parseOrZero (p : ParsedNum) : Rat := p.getD 0

/-- JavaScript `x >= b` where `b` came from `parseFloat`: any comparison
with `NaN` is `false`. -/
def jge (x : Rat) (b : ParsedNum) : Bool :=
  match b with
  | none => false
  | some v => decide (v ≤ x)

/-- JavaScript `x <= b` where `b` came from `parseFloat`: any comparison
with `NaN` is `false`. -/
def jle (x : Rat) (b : ParsedNum) : Bool :=
  match b with
  | none => false
  | some v => decide (x ≤ v)

/-- JavaScript `s.toLowerCase()`, character by character (ASCII model of
the Unicode mapping). -/
def lowerStr (s : String) : String :=
  String.mk (s.toList.map Char.toLower)

/-- JavaScript `s.trim()`: strip leading and trailing whitespace. -/
def trimStr (s : String) : String :=
  String.mk (((s.toList.dropWhile Char.isWhitespace).reverse.dropWhile
    Char.isWhitespace).reverse)

/-- `s.toLowerCase().replace(/[^a-z0-9\s]/g, "")`: lowercase, then keep
only lowercase ASCII letters, digits and whitespace. -/
def searchKeyOf (s : String) : String :=
  String.mk ((lowerStr s).toList.filter fun c =>
    (97 ≤ c.toNat && c.toNat ≤ 122) || c.isDigit || c.isWhitespace)

/-- One raw CSV row as handed to the cleaners: the three string fields as
parsed by PapaParse (`""` models a missing/empty cell, which is falsy in
JavaScript; `Cuisine_type` may be absent entirely), and the three numeric
cells already pushed through `parseFloat` (`none` = `NaN`). -/
structure RawRow where
  Recipe_name : String
  Diet_type : String
  Cuisine_type : Option String
  Protein_g : ParsedNum
  Carbs_g : ParsedNum
  Fat_g : ParsedNum
deriving DecidableEq

/-- The dedup key of the dataset route and of the statistics route:
`` `${row.Recipe_name}_${row.Diet_type}` `` on the raw, un-normalized
strings. -/
def dedupKey (r : RawRow) : String :=
  r.Recipe_name ++ "_" ++ r.Diet_type

/-- A cleaned record of the dataset route (interface `DietRecord` of the
dataset route, all optional fields filled by `cleanDataset`). -/
structure DietRecord where
  Recipe_name : String
  Diet_type : String
  Cuisine_type : String
  Protein_g : Rat
  Carbs_g : Rat
  Fat_g : Rat
  Calories : Rat
  Total_macros : Rat
  Recipe_name_search : String
deriving DecidableEq

/-- The record `cleanDataset` pushes for a surviving row, given the
parsed macro values. -/
def mkDietRecord (row : RawRow) (protein carbs fat : Rat) : DietRecord :=
  { Recipe_name := trimStr row.Recipe_name
    Diet_type := trimStr (lowerStr row.Diet_type)
    Cuisine_type := ((row.Cuisine_type.map fun s => trimStr (lowerStr s)).getD "")
    Protein_g := protein
    Carbs_g := carbs
    Fat_g := fat
    Calories := protein * 4 + carbs * 4 + fat * 9
    Total_macros := protein + carbs + fat
    Recipe_name_search := searchKeyOf row.Recipe_name }

/-- The loop body of `cleanDataset` (dataset route), with the mutable
`seen : Set<string>` made an explicit accumulator.  Note the source adds
the key to `seen` before the outlier check, so an outlier row still
claims its key. -/
def cleanDatasetGo : List String → List RawRow → List DietRecord
  | _, [] => []
  | seen, row :: rest =>
    if row.Recipe_name = "" ∨ row.Diet_type = "" then
      cleanDatasetGo seen rest
    else if dedupKey row ∈ seen then
      cleanDatasetGo seen rest
    else
      let protein := parseOrZero row.Protein_g
      let carbs := parseOrZero row.Carbs_g
      let fat := parseOrZero row.Fat_g
      if 2000 ≤ protein ∨ 3000 ≤ carbs ∨ 2000 ≤ fat then
        cleanDatasetGo (dedupKey row :: seen) rest
      else
        mkDietRecord row protein carbs fat ::
          cleanDatasetGo (dedupKey row :: seen) rest

/-- `cleanDataset` of the dataset route. -/
def cleanDataset (rawData : List RawRow) : List DietRecord :=
  cleanDatasetGo [] rawData

/-- A cleaned record of the statistics route (its narrower `DietRecord`
interface: no `Total_macros`, no `Recipe_name_search`). -/
structure StatsRecord where
  Recipe_name : String
  Diet_type : String
  Cuisine_type : String
  Protein_g : Rat
  Carbs_g : Rat
  Fat_g : Rat
  Calories : Rat
deriving DecidableEq

/-- The record the statistics route pushes for a surviving row. -/
def mkStatsRecord (row : RawRow) (protein carbs fat : Rat) : StatsRecord :=
  { Recipe_name := trimStr row.Recipe_name
    Diet_type := trimStr (lowerStr row.Diet_type)
    Cuisine_type := ((row.Cuisine_type.map fun s => trimStr (lowerStr s)).getD "")
    Protein_g := protein
    Carbs_g := carbs
    Fat_g := fat
    Calories := protein * 4 + carbs * 4 + fat * 9 }

/-- The cleaning loop inside `loadAndCleanData` (statistics route), the
independent second implementation of the cleaning rules. -/
def loadAndCleanGo : List String → List RawRow → List StatsRecord
  | _, [] => []
  | seen, row :: rest =>
    if row.Recipe_name = "" ∨ row.Diet_type = "" then
      loadAndCleanGo seen rest
    else if dedupKey row ∈ seen then
      loadAndCleanGo seen rest
    else
      let protein := parseOrZero row.Protein_g
      let carbs := parseOrZero row.Carbs_g
      let fat := parseOrZero row.Fat_g
      if 2000 ≤ protein ∨ 3000 ≤ carbs ∨ 2000 ≤ fat then
        loadAndCleanGo (dedupKey row :: seen) rest
      else
        mkStatsRecord row protein carbs fat ::
          loadAndCleanGo (dedupKey row :: seen) rest

/-- The cleaning stage of `loadAndCleanData` (statistics route), as a
function of the parsed rows. -/
def loadAndCleanData (rawData : List RawRow) : List StatsRecord :=
  loadAndCleanGo [] rawData

/-! ## Statistics route: `calculateStatistics` and its TTL-cached `GET` -/

/-- A JavaScript number as it appears in the overall statistics: a finite
value, `NaN`, or a signed infinity. -/
inductive JNum where
  | num (q : Rat)
  | nan
  | inf
  | neginf
deriving DecidableEq

/-- JavaScript division `x / n` with `n` an array length: `0 / 0` is
`NaN`, `x / 0` for nonzero `x` a signed infinity. -/
def jdivLen (x : Rat) (n : Nat) : JNum :=
  if n = 0 then
    if x = 0 then JNum.nan else if 0 < x then JNum.inf else JNum.neginf
  else
    JNum.num (x / n)

/-- `Math.max(...l)` over finite values: the maximum, or `-Infinity` for
an empty list. -/
def jmaxList (l : List Rat) : JNum :=
  match l with
  | [] => JNum.neginf
  | x :: xs => JNum.num (xs.foldl max x)

/-- `parseFloat(q.toFixed(2))` on a finite value: round to 2 decimal
places. -/
def round2 (q : Rat) : Rat :=
  round (q * 100) / 100

/-- `parseFloat(x.toFixed(2))` on a JavaScript number: `NaN.toFixed(2)`
is `"NaN"` and `(±Infinity).toFixed(2)` is `"±Infinity"`, both of which
`parseFloat` maps back to themselves, so only finite values change. -/
def round2J : JNum → JNum
  | JNum.num q => JNum.num (round2 q)
  | j => j

/-- Bump the count of key `k` in an insertion-ordered association list
(JavaScript object used as counter: `o[k] = (o[k] || 0) + 1`). -/
def bumpCount (k : String) : List (String × Nat) → List (String × Nat)
  | [] => [(k, 1)]
  | (j, n) :: rest =>
    if j = k then (j, n + 1) :: rest else (j, n) :: bumpCount k rest

/-- Count occurrences of each key, keys in first-occurrence order. -/
def countBy (keys : List String) : List (String × Nat) :=
  keys.foldl (fun acc k => bumpCount k acc) []

/-- Append record `r` to the group of key `k` in an insertion-ordered
association list of groups. -/
def addToGroup (k : String) (r : StatsRecord) :
    List (String × List StatsRecord) → List (String × List StatsRecord)
  | [] => [(k, [r])]
  | (j, rs) :: rest =>
    if j = k then (j, rs ++ [r]) :: rest else (j, rs) :: addToGroup k r rest

/-- Group records by a key function, groups in first-occurrence order,
members in input order (JavaScript object of arrays). -/
def groupBy (key : StatsRecord → String) (data : List StatsRecord) :
    List (String × List StatsRecord) :=
  data.foldl (fun acc r => addToGroup (key r) r acc) []

/-- Stable insertion of `x` into `l` with respect to the boolean
relation `le`: `x` goes before the first element it compares `le` to. -/
def insertLe (le : α → α → Bool) (x : α) : List α → List α
  | [] => [x]
  | y :: ys => if le x y then x :: y :: ys else y :: insertLe le x ys

/-- Stable sort by a boolean relation, modelling JavaScript
`Array.prototype.sort` with a consistent comparator (the ECMAScript sort
is required to be stable). -/
def sortByLe (le : α → α → Bool) : List α → List α
  | [] => []
  | x :: xs => insertLe le x (sortByLe le xs)

/-- First-occurrence deduplication, modelling `[...new Set(l)]`. -/
def dedupFirst (l : List String) : List String :=
  l.foldl (fun acc s => if s ∈ acc then acc else acc ++ [s]) []

/-- The per-group average block of `calculateStatistics`, all four
averages rounded to 2 decimal places. -/
structure MacroAvgs where
  Protein_g : Rat
  Carbs_g : Rat
  Fat_g : Rat
  Calories : Rat
deriving DecidableEq

/-- The averages of one (nonempty) group. -/
def avgMacros (items : List StatsRecord) : MacroAvgs :=
  { Protein_g := round2 (((items.map StatsRecord.Protein_g).sum) / items.length)
    Carbs_g := round2 (((items.map StatsRecord.Carbs_g).sum) / items.length)
    Fat_g := round2 (((items.map StatsRecord.Fat_g).sum) / items.length)
    Calories := round2 (((items.map StatsRecord.Calories).sum) / items.length) }

/-- The `overall_stats` block: averages divide by `data.length` (which
may be `0`), maxima are `Math.max` over possibly empty spreads. -/
structure OverallStats where
  avg_protein : JNum
  avg_carbs : JNum
  avg_fat : JNum
  avg_calories : JNum
  max_protein : JNum
  max_carbs : JNum
  max_fat : JNum
  max_calories : JNum
deriving DecidableEq

/-- An entry of `top_calorie_recipes`. -/
structure TopCalorieEntry where
  Recipe_name : String
  Diet_type : String
  Cuisine_type : String
  Calories : Rat
deriving DecidableEq

/-- An entry of `high_protein_recipes`. -/
structure TopProteinEntry where
  Recipe_name : String
  Diet_type : String
  Cuisine_type : String
  Protein_g : Rat
deriving DecidableEq

/-- The full statistics snapshot returned by the statistics route. -/
structure Statistics where
  total_recipes : Nat
  diet_types : List String
  cuisine_types : List String
  recipes_by_diet : List (String × Nat)
  recipes_by_cuisine : List (String × Nat)
  avg_macros_by_diet : List (String × MacroAvgs)
  avg_macros_by_cuisine : List (String × MacroAvgs)
  overall_stats : OverallStats
  top_calorie_recipes : List TopCalorieEntry
  high_protein_recipes : List TopProteinEntry
deriving DecidableEq

/-- `calculateStatistics` of the statistics route.  JavaScript objects
are modelled as insertion-ordered association lists; `Object.entries`
returns them in that order. -/
def calculateStatistics (data : List StatsRecord) : Statistics :=
  let recipesByDiet := countBy (data.map StatsRecord.Diet_type)
  let recipesByCuisine :=
    countBy ((data.map StatsRecord.Cuisine_type).filter fun c => c ≠ "")
  let top20Cuisines :=
    (sortByLe (fun a b => decide (b.2 ≤ a.2)) recipesByCuisine).take 20
  let dietGroups := groupBy StatsRecord.Diet_type data
  let cuisineGroups :=
    groupBy StatsRecord.Cuisine_type (data.filter fun r => r.Cuisine_type ≠ "")
  let totalProtein := (data.map StatsRecord.Protein_g).sum
  let totalCarbs := (data.map StatsRecord.Carbs_g).sum
  let totalFat := (data.map StatsRecord.Fat_g).sum
  let totalCalories := (data.map StatsRecord.Calories).sum
  { total_recipes := data.length
    diet_types :=
      sortByLe (fun a b => decide (a ≤ b)) (dedupFirst (data.map StatsRecord.Diet_type))
    cuisine_types :=
      sortByLe (fun a b => decide (a ≤ b))
        (dedupFirst ((data.map StatsRecord.Cuisine_type).filter fun c => c ≠ ""))
    recipes_by_diet := recipesByDiet
    recipes_by_cuisine := top20Cuisines
    avg_macros_by_diet := dietGroups.map fun g => (g.1, avgMacros g.2)
    avg_macros_by_cuisine := cuisineGroups.map fun g => (g.1, avgMacros g.2)
    overall_stats :=
      { avg_protein := round2J (jdivLen totalProtein data.length)
        avg_carbs := round2J (jdivLen totalCarbs data.length)
        avg_fat := round2J (jdivLen totalFat data.length)
        avg_calories := round2J (jdivLen totalCalories data.length)
        max_protein := round2J (jmaxList (data.map StatsRecord.Protein_g))
        max_carbs := round2J (jmaxList (data.map StatsRecord.Carbs_g))
        max_fat := round2J (jmaxList (data.map StatsRecord.Fat_g))
        max_calories := round2J (jmaxList (data.map StatsRecord.Calories)) }
    top_calorie_recipes :=
      ((sortByLe (fun a b => decide (b.Calories ≤ a.Calories)) data).take 10).map
        fun r => { Recipe_name := r.Recipe_name, Diet_type := r.Diet_type,
                   Cuisine_type := r.Cuisine_type, Calories := r.Calories }
    high_protein_recipes :=
      ((sortByLe (fun a b => decide (b.Protein_g ≤ a.Protein_g)) data).take 10).map
        fun r => { Recipe_name := r.Recipe_name, Diet_type := r.Diet_type,
                   Cuisine_type := r.Cuisine_type, Protein_g := r.Protein_g } }

/-- The module-level cache of the statistics route (`cachedStats`,
`lastStatsCalcTime`). -/
structure StatsCacheState where
  cachedStats : Option Statistics
  lastStatsCalcTime : Option Int
deriving DecidableEq

/-- `CACHE_DURATION`: one hour in milliseconds. -/
def CACHE_DURATION : Int := 3600000

/-- The `GET` handler of the statistics route, as a function of the
current parsed source rows, the current clock (`Date.now()`), and the
module cache.  The JavaScript guard is
`cachedStats && lastStatsCalcTime && (now - lastStatsCalcTime) < CACHE_DURATION`,
so a stored time of `0` is falsy and also forces recomputation. -/
def statsGET (rows : List RawRow) (now : Int) (st : StatsCacheState) :
    Statistics × StatsCacheState :=
  match st.cachedStats, st.lastStatsCalcTime with
  | some s, some t =>
    if t ≠ 0 ∧ now - t < CACHE_DURATION then
      (s, st)
    else
      let stats := calculateStatistics (loadAndCleanData rows)
      (stats, ⟨some stats, some now⟩)
  | _, _ =>
    let stats := calculateStatistics (loadAndCleanData rows)
    (stats, ⟨some stats, some now⟩)

/-! ## Dataset route: filters, sort, the mtime cache, and the `GET` handler -/

/-- The query parameters of the dataset route.  Text parameters are the
raw strings (`none` = absent).  Numeric parameters carry the JavaScript
truthiness check on the raw string in the outer `Option` (`none` =
absent or empty string) and the `parseFloat` result inside (`none` =
`NaN`). -/
structure QueryParams where
  diet_type : Option String
  cuisine_type : Option String
  search : Option String
  min_protein : Option ParsedNum
  max_protein : Option ParsedNum
  min_carbs : Option ParsedNum
  max_carbs : Option ParsedNum
  min_fat : Option ParsedNum
  max_fat : Option ParsedNum
  min_calories : Option ParsedNum
  max_calories : Option ParsedNum
  sort_by : Option String
  sort_order : Option String
deriving DecidableEq

/-- A query with no parameters set. -/
def emptyQuery : QueryParams :=
  ⟨none, none, none, none, none, none, none, none, none, none, none, none, none⟩

/-- `searchParams.get(p)?.toLowerCase().trim()` followed by the JavaScript
truthiness test: the processed string, or `none` when absent or empty. -/
def textParam (p : Option String) : Option String :=
  match p with
  | none => none
  | some s =>
    let t := trimStr (lowerStr s)
    if t = "" then none else some t

/-- `needle` occurs as a prefix of `hay` (character lists). -/
def isPrefixB : List Char → List Char → Bool
  | [], _ => true
  | _ :: _, [] => false
  | c :: cs, d :: ds => c == d && isPrefixB cs ds

/-- JavaScript `hay.includes(needle)`: substring occurrence. -/
def isInfixB (needle : List Char) : List Char → Bool
  | [] => isPrefixB needle []
  | c :: rest => isPrefixB needle (c :: rest) || isInfixB needle rest

/-- The three text filters of the dataset route `GET`, in source order:
`diet_type` exact match, `cuisine_type` exact match, `search` substring
match against `Recipe_name_search`. -/
def applyTextFilters (q : QueryParams) (l : List DietRecord) : List DietRecord :=
  let l1 :=
    match textParam q.diet_type with
    | none => l
    | some dt => l.filter fun r => r.Diet_type == dt
  let l2 :=
    match textParam q.cuisine_type with
    | none => l1
    | some ct => l1.filter fun r => r.Cuisine_type == ct
  match textParam q.search with
  | none => l2
  | some s => l2.filter fun r => isInfixB s.toList r.Recipe_name_search.toList

/-- One `min_*` filter: applied only when the parameter string is truthy;
the comparison `field >= parseFloat(p)` is `false` for every record when
the value is `NaN`. -/
def numGeFilter (p : Option ParsedNum) (f : DietRecord → Rat)
    (l : List DietRecord) : List DietRecord :=
  match p with
  | none => l
  | some b => l.filter fun r => jge (f r) b

/-- One `max_*` filter, analogously. -/
def numLeFilter (p : Option ParsedNum) (f : DietRecord → Rat)
    (l : List DietRecord) : List DietRecord :=
  match p with
  | none => l
  | some b => l.filter fun r => jle (f r) b

/-- The eight numeric range filters of the dataset route `GET`, in
source order (protein, carbs, fat, calories; min before max). -/
def applyNumFilters (q : QueryParams) (l : List DietRecord) : List DietRecord :=
  numLeFilter q.max_calories (fun r => r.Calories)
    (numGeFilter q.min_calories (fun r => r.Calories)
      (numLeFilter q.max_fat (fun r => r.Fat_g)
        (numGeFilter q.min_fat (fun r => r.Fat_g)
          (numLeFilter q.max_carbs (fun r => r.Carbs_g)
            (numGeFilter q.min_carbs (fun r => r.Carbs_g)
              (numLeFilter q.max_protein (fun r => r.Protein_g)
                (numGeFilter q.min_protein (fun r => r.Protein_g) l)))))))

/-- All filters of the dataset route `GET`, in source order. -/
def applyFilters (q : QueryParams) (l : List DietRecord) : List DietRecord :=
  applyNumFilters q (applyTextFilters q l)

/-- The sortable fields (`sortFieldMap` of the dataset route). -/
inductive SortField where
  | protein
  | carbs
  | fat
  | calories
  | recipe_name
deriving DecidableEq

/-- `sortFieldMap`: recognized `sort_by` values. -/
def sortFieldMap (s : String) : Option SortField :=
  if s = "protein" then some SortField.protein
  else if s = "carbs" then some SortField.carbs
  else if s = "fat" then some SortField.fat
  else if s = "calories" then some SortField.calories
  else if s = "recipe_name" then some SortField.recipe_name
  else none

/-- The numeric sort key (`a[field] || 0`; all fields are set on cleaned
records, so the fallback never fires). -/
def sortKeyRat : SortField → DietRecord → Rat
  | SortField.protein, r => r.Protein_g
  | SortField.carbs, r => r.Carbs_g
  | SortField.fat, r => r.Fat_g
  | SortField.calories, r => r.Calories
  | SortField.recipe_name, _ => 0

/-- The comparator of the dataset route sort as a boolean `le` relation:
numeric difference for the numeric fields, `localeCompare` (modelled by
the string order) for `recipe_name`; `asc` exactly when the processed
`sort_order` equals `"asc"`, anything else sorts descending. -/
def recLe (f : SortField) (asc : Bool) (a b : DietRecord) : Bool :=
  match f with
  | SortField.recipe_name =>
    if asc then decide (a.Recipe_name ≤ b.Recipe_name)
    else decide (b.Recipe_name ≤ a.Recipe_name)
  | f =>
    if asc then decide (sortKeyRat f a ≤ sortKeyRat f b)
    else decide (sortKeyRat f b ≤ sortKeyRat f a)

/-- The processed `sort_order`:
`searchParams.get("sort_order")?.toLowerCase() || "asc"`. -/
def effectiveOrder (sort_order : Option String) : String :=
  match sort_order with
  | none => "asc"
  | some s => if lowerStr s = "" then "asc" else lowerStr s

/-- The sorting step of the dataset route `GET`: applied only when
`sort_by` is truthy and recognized by `sortFieldMap`. -/
def applySort (sort_by sort_order : Option String) (l : List DietRecord) :
    List DietRecord :=
  match (sort_by.map lowerStr).bind sortFieldMap with
  | none => l
  | some f => sortByLe (recLe f (effectiveOrder sort_order == "asc")) l

/-- Whether the sorting step runs (and so mutates its array). -/
def sortActive (q : QueryParams) : Bool :=
  ((q.sort_by.map lowerStr).bind sortFieldMap).isSome

/-- Whether at least one filter is applied; each applied filter replaces
`data` by a fresh array, detaching it from the cached array. -/
def anyFilterActive (q : QueryParams) : Bool :=
  (textParam q.diet_type).isSome || (textParam q.cuisine_type).isSome
    || (textParam q.search).isSome || q.min_protein.isSome
    || q.max_protein.isSome || q.min_carbs.isSome || q.max_carbs.isSome
    || q.min_fat.isSome || q.max_fat.isSome || q.min_calories.isSome
    || q.max_calories.isSome

/-- The public view of a record: `Recipe_name_search` stripped. -/
structure DietRecordView where
  Recipe_name : String
  Diet_type : String
  Cuisine_type : String
  Protein_g : Rat
  Carbs_g : Rat
  Fat_g : Rat
  Calories : Rat
  Total_macros : Rat
deriving DecidableEq

/-- Strip the internal search field for the response. -/
def toView (r : DietRecord) : DietRecordView :=
  { Recipe_name := r.Recipe_name, Diet_type := r.Diet_type,
    Cuisine_type := r.Cuisine_type, Protein_g := r.Protein_g,
    Carbs_g := r.Carbs_g, Fat_g := r.Fat_g, Calories := r.Calories,
    Total_macros := r.Total_macros }

/-- The response body of the dataset route `GET` (the parts the claims
are about). -/
structure RouteResponse where
  data : List DietRecordView
  total_items : Nat
deriving DecidableEq

/-- The dataset route `GET` handler applied to the cached dataset array:
returns the response together with the content of the cached array after
the request.  `Array.prototype.sort` sorts in place, and `data` aliases
the cached array exactly when no filter was applied, so in that case the
sort reorders the cache itself; every applied filter yields a fresh
array and leaves the cache untouched. -/
def datasetGET (cache : List DietRecord) (q : QueryParams) :
    RouteResponse × List DietRecord :=
  let sorted := applySort q.sort_by q.sort_order (applyFilters q cache)
  let newCache :=
    if anyFilterActive q then cache
    else if sortActive q then sorted
    else cache
  ({ data := sorted.map toView, total_items := sorted.length }, newCache)

/-- The source file as the dataset route sees it: the parsed rows of its
content, and its modification time `mtimeMs`. -/
structure SourceFile where
  rows : List RawRow
  mtimeMs : Int
deriving DecidableEq

/-- The module-level cache of the dataset route (`cachedData`,
`lastFileModTime`). -/
structure DataCacheState where
  cachedData : Option (List DietRecord)
  lastFileModTime : Option Int
deriving DecidableEq

/-- `loadData` of the dataset route: return the cached dataset when it
exists and the stored modification time strictly equals the current
`mtimeMs`; otherwise re-read, re-clean, and overwrite the cache.  The
third component records whether recomputation happened. -/
def loadData (src : SourceFile) (st : DataCacheState) :
    List DietRecord × DataCacheState × Bool :=
  match st.cachedData, st.lastFileModTime with
  | some d, some t =>
    if t = src.mtimeMs then (d, st, false)
    else
      let cleaned := cleanDataset src.rows
      (cleaned, ⟨some cleaned, some src.mtimeMs⟩, true)
  | _, _ =>
    let cleaned := cleanDataset src.rows
    (cleaned, ⟨some cleaned, some src.mtimeMs⟩, true)

/-! ## The paginated `fetch_dataset` interface -/

/-- The filtered and sorted sequence a query denotes (the dataset route
pipeline before any response shaping). -/
def filteredSorted (ds : List DietRecord) (q : QueryParams) : List DietRecord :=
  applySort q.sort_by q.sort_order (applyFilters q ds)

/-- A `fetch_dataset` request: the filter/sort parameters plus parsed
`page` and `per_page` (`none` = absent or unparsable, replaced by the
default). -/
structure FetchQuery where
  params : QueryParams
  page : Option Int
  per_page : Option Int
deriving DecidableEq

/-- The pagination envelope of a `fetch_dataset` response. -/
structure Pagination where
  page : Int
  per_page : Int
  total_items : Nat
  total_pages : Nat
  has_next : Bool
  has_prev : Bool
deriving DecidableEq

/-- A `fetch_dataset` response. -/
structure FetchResponse where
  data : List DietRecordView
  pagination : Pagination
deriving DecidableEq

/-- Modelled from the spec: the Flask backend serving `FetchDataset`
(`backend/app.py`) is not among the provided sources (only its callers
and its deployment files are), so its pagination is taken from the spec:
`page ≥ 1` with default `1`, `per_page` clamped to `[1, 100]` with
default `20`, the data page is the slice
`[(page-1)*per_page, page*per_page)` of the filtered+sorted sequence,
`total_items` the filtered count before pagination, `total_pages` its
ceiling quotient by `per_page`, and `has_next`/`has_prev` derived from
the page bounds.  Filtering and sorting follow the embedded query
pipeline. -/
def fetch_dataset (ds : List DietRecord) (q : FetchQuery) : FetchResponse :=
  let fs := filteredSorted ds q.params
  let perPage : Int := max 1 (min (q.per_page.getD 20) 100)
  let page : Int := max 1 (q.page.getD 1)
  let total := fs.length
  let totalPages := (total + perPage.toNat - 1) / perPage.toNat
  { data := ((fs.drop ((page - 1) * perPage).toNat).take perPage.toNat).map toView
    pagination :=
      { page := page
        per_page := perPage
        total_items := total
        total_pages := totalPages
        has_next := decide (page < (totalPages : Int))
        has_prev := decide (1 < page) } }

/-! ## Concrete inputs used by witnesses and counterexamples -/

/-- A plain surviving row. -/
def rowA : RawRow := ⟨"A", "Paleo", some "Thai", some 10, some 10, some 10⟩

/-- The same stored pair as `rowA` after normalization, but a different
raw `Diet_type` casing. -/
def rowALower : RawRow := ⟨"A", "paleo", none, some 1, some 2, some 3⟩

/-- A clean record for query counterexamples. -/
def recQ : DietRecord :=
  ⟨"Apple pie", "paleo", "american", 10, 20, 5, 165, 35, "apple pie"⟩

/-- A second clean record with smaller protein, for the sort
counterexample. -/
def recR : DietRecord :=
  ⟨"Beet soup", "keto", "polish", 3, 4, 5, 73, 12, "beet soup"⟩

/-- A query whose only parameter is a present but unparsable
`min_protein` (`parseFloat` gives `NaN`). -/
def qNan : QueryParams := { emptyQuery with min_protein := some none }

/-- A query that only sorts by protein. -/
def qSort : QueryParams := { emptyQuery with sort_by := some "protein" }

/-- The projection of a dataset-route record onto the fields the
statistics-route record also carries. -/
def sharedFields (r : DietRecord) : StatsRecord :=
  ⟨r.Recipe_name, r.Diet_type, r.Cuisine_type, r.Protein_g, r.Carbs_g,
    r.Fat_g, r.Calories⟩

/-- Rows for the cache counterexamples: one surviving row. -/
def rowsOne : List RawRow := [⟨"A", "paleo", none, some 1, some 1, some 1⟩]

/-! ## Cleaning lemmas shared by several claims -/

/-- Every record produced by the cleaning loop is a `mkDietRecord` of
macro values that passed the outlier test. -/
theorem cleanDatasetGo_props {seen : List String} {raw : List RawRow}
    {r : DietRecord} (h : r ∈ cleanDatasetGo seen raw) :
    r.Calories = r.Protein_g * 4 + r.Carbs_g * 4 + r.Fat_g * 9 ∧
      r.Total_macros = r.Protein_g + r.Carbs_g + r.Fat_g ∧
      r.Protein_g < 2000 ∧ r.Carbs_g < 3000 ∧ r.Fat_g < 2000 := by
  induction raw generalizing seen with
  | nil => simp [cleanDatasetGo] at h
  | cons row rest ih =>
    simp only [cleanDatasetGo] at h
    split at h
    · exact ih h
    · split at h
      · exact ih h
      · split at h
        · exact ih h
        · rcases List.mem_cons.mp h with h1 | h2
          · subst h1
            have hout : ¬(2000 ≤ parseOrZero row.Protein_g ∨
                3000 ≤ parseOrZero row.Carbs_g ∨
                2000 ≤ parseOrZero row.Fat_g) := by assumption
            push_neg at hout
            simp only [mkDietRecord]
            exact ⟨trivial, trivial, hout.1, hout.2.1, hout.2.2⟩
          · exact ih h2

/-- Claim C8: every raw input row whose parsed macros meet or exceed an
outlier threshold (`protein_g ≥ 2000`, `carbs_g ≥ 3000`, `fat_g ≥ 2000`,
unparsable values defaulting to `0`) contributes no record to the
cleaned output: equivalently, every cleaned record is strictly below all
three thresholds. -/
theorem cleanDataset_outlier_bounds (raw : List RawRow) (r : DietRecord)
    (h : r ∈ cleanDataset raw) :
    r.Protein_g < 2000 ∧ r.Carbs_g < 3000 ∧ r.Fat_g < 2000 :=
  (cleanDatasetGo_props h).2.2

/-- Witness for C8 at a concrete surviving row. -/
theorem cleanDataset_outlier_bounds_witness :
    mkDietRecord rowA 10 10 10 ∈ cleanDataset [rowA] ∧
      ((mkDietRecord rowA 10 10 10).Protein_g < 2000 ∧
        (mkDietRecord rowA 10 10 10).Carbs_g < 3000 ∧
        (mkDietRecord rowA 10 10 10).Fat_g < 2000) :=
  ⟨by with_unfolding_all decide,
    cleanDataset_outlier_bounds [rowA] (mkDietRecord rowA 10 10 10)
      (by with_unfolding_all decide)⟩

/-- Claim C9: every cleaned record satisfies the derived-field equations
exactly: `calories = protein_g*4 + carbs_g*4 + fat_g*9` and
`total_macros = protein_g + carbs_g + fat_g`. -/
theorem cleanDataset_derived_fields (raw : List RawRow) (r : DietRecord)
    (h : r ∈ cleanDataset raw) :
    r.Calories = r.Protein_g * 4 + r.Carbs_g * 4 + r.Fat_g * 9 ∧
      r.Total_macros = r.Protein_g + r.Carbs_g + r.Fat_g :=
  ⟨(cleanDatasetGo_props h).1, (cleanDatasetGo_props h).2.1⟩

/-- Witness for C9 at a concrete surviving row. -/
theorem cleanDataset_derived_fields_witness :
    mkDietRecord rowALower 1 2 3 ∈ cleanDataset [rowALower] ∧
      ((mkDietRecord rowALower 1 2 3).Calories =
          (mkDietRecord rowALower 1 2 3).Protein_g * 4 +
            (mkDietRecord rowALower 1 2 3).Carbs_g * 4 +
            (mkDietRecord rowALower 1 2 3).Fat_g * 9 ∧
        (mkDietRecord rowALower 1 2 3).Total_macros =
          (mkDietRecord rowALower 1 2 3).Protein_g +
            (mkDietRecord rowALower 1 2 3).Carbs_g +
            (mkDietRecord rowALower 1 2 3).Fat_g) :=
  ⟨by with_unfolding_all decide,
    cleanDataset_derived_fields [rowALower] (mkDietRecord rowALower 1 2 3)
      (by with_unfolding_all decide)⟩

/-- The two cleaning loops agree on the shared fields for every
accumulator. -/
theorem cleanGo_agree (raw : List RawRow) (seen : List String) :
    (cleanDatasetGo seen raw).map sharedFields = loadAndCleanGo seen raw := by
  induction raw generalizing seen with
  | nil => simp [cleanDatasetGo, loadAndCleanGo]
  | cons row rest ih =>
    simp only [cleanDatasetGo, loadAndCleanGo]
    by_cases h1 : row.Recipe_name = "" ∨ row.Diet_type = ""
    · simp only [if_pos h1]
      exact ih seen
    · simp only [if_neg h1]
      by_cases h2 : dedupKey row ∈ seen
      · simp only [if_pos h2]
        exact ih seen
      · simp only [if_neg h2]
        by_cases h3 : 2000 ≤ parseOrZero row.Protein_g ∨
            3000 ≤ parseOrZero row.Carbs_g ∨ 2000 ≤ parseOrZero row.Fat_g
        · simp only [if_pos h3]
          exact ih (dedupKey row :: seen)
        · simp only [if_neg h3, List.map_cons, ih (dedupKey row :: seen)]
          rfl

/-- Claim C10: the two independent cleaning implementations (the dataset
route `cleanDataset` and the statistics route inline cleaning) are
equivalent on their shared fields: for every raw input they produce
record sequences of equal length agreeing pointwise on recipe name, diet
type, cuisine type, protein, carbs, fat and calories. -/
theorem cleaners_agree_on_shared_fields (raw : List RawRow) :
    (cleanDataset raw).map sharedFields = loadAndCleanData raw :=
  cleanGo_agree raw []

/-! ## Dedup: raw-key first-occurrence semantics -/

/-- Claim C7, counterexample: two rows whose stored
`(recipe_name, diet_type)` pairs are identical after normalization but
whose raw strings differ in casing both survive cleaning, so the
cleaned output has two records with the same stored pair. -/
theorem dedup_normalized_pair_cex :
    (cleanDataset [rowA, rowALower]).length = 2 ∧
      ((cleanDataset [rowA, rowALower]).map fun r =>
          (r.Recipe_name, r.Diet_type)) =
        [("A", "paleo"), ("A", "paleo")] := by
  with_unfolding_all decide

/-- Dropping a row whose raw dedup key is already in the accumulator
never changes the output of the cleaning loop. -/
theorem cleanDatasetGo_drop_seen (l1 : List RawRow) (seen : List String)
    (r2 : RawRow) (l2 : List RawRow) (h : dedupKey r2 ∈ seen) :
    cleanDatasetGo seen (l1 ++ r2 :: l2) = cleanDatasetGo seen (l1 ++ l2) := by
  induction l1 generalizing seen with
  | nil =>
    simp only [List.nil_append, cleanDatasetGo]
    by_cases hm : r2.Recipe_name = "" ∨ r2.Diet_type = ""
    · rw [if_pos hm]
    · rw [if_neg hm, if_pos h]
  | cons row rest ih =>
    simp only [List.cons_append, cleanDatasetGo]
    by_cases h1 : row.Recipe_name = "" ∨ row.Diet_type = ""
    · rw [if_pos h1, if_pos h1]
      exact ih seen h
    · rw [if_neg h1, if_neg h1]
      by_cases h2 : dedupKey row ∈ seen
      · rw [if_pos h2, if_pos h2]
        exact ih seen h
      · rw [if_neg h2, if_neg h2]
        by_cases h3 : 2000 ≤ parseOrZero row.Protein_g ∨
            3000 ≤ parseOrZero row.Carbs_g ∨ 2000 ≤ parseOrZero row.Fat_g
        · rw [if_pos h3, if_pos h3]
          exact ih (dedupKey row :: seen) (List.mem_cons_of_mem _ h)
        · rw [if_neg h3, if_neg h3]
          exact congrArg _ (ih (dedupKey row :: seen) (List.mem_cons_of_mem _ h))

/-- The loop-level form of the amended dedup claim. -/
theorem cleanDatasetGo_dedup (pre : List RawRow) (r1 : RawRow)
    (mid : List RawRow) (r2 : RawRow) (post : List RawRow)
    (seen : List String) (hn : r1.Recipe_name ≠ "") (hd : r1.Diet_type ≠ "")
    (hk : dedupKey r1 = dedupKey r2) :
    cleanDatasetGo seen (pre ++ r1 :: mid ++ r2 :: post) =
      cleanDatasetGo seen (pre ++ r1 :: mid ++ post) := by
  induction pre generalizing seen with
  | nil =>
    simp only [List.nil_append, cleanDatasetGo]
    have hc : ¬(r1.Recipe_name = "" ∨ r1.Diet_type = "") := by simp [hn, hd]
    rw [if_neg hc, if_neg hc]
    by_cases h2 : dedupKey r1 ∈ seen
    · rw [if_pos h2, if_pos h2]
      exact cleanDatasetGo_drop_seen mid seen r2 post (hk ▸ h2)
    · rw [if_neg h2, if_neg h2]
      have hmem : dedupKey r2 ∈ dedupKey r1 :: seen := by
        rw [← hk]; exact List.mem_cons_self _ _
      by_cases h3 : 2000 ≤ parseOrZero r1.Protein_g ∨
          3000 ≤ parseOrZero r1.Carbs_g ∨ 2000 ≤ parseOrZero r1.Fat_g
      · rw [if_pos h3, if_pos h3]
        exact cleanDatasetGo_drop_seen mid _ r2 post hmem
      · rw [if_neg h3, if_neg h3]
        exact congrArg _ (cleanDatasetGo_drop_seen mid _ r2 post hmem)
  | cons row rest ih =>
    simp only [List.cons_append, cleanDatasetGo]
    by_cases h1 : row.Recipe_name = "" ∨ row.Diet_type = ""
    · rw [if_pos h1, if_pos h1]
      exact ih seen
    · rw [if_neg h1, if_neg h1]
      by_cases h2 : dedupKey row ∈ seen
      · rw [if_pos h2, if_pos h2]
        exact ih seen
      · rw [if_neg h2, if_neg h2]
        by_cases h3 : 2000 ≤ parseOrZero row.Protein_g ∨
            3000 ≤ parseOrZero row.Carbs_g ∨ 2000 ≤ parseOrZero row.Fat_g
        · rw [if_pos h3, if_pos h3]
          exact ih (dedupKey row :: seen)
        · rw [if_neg h3, if_neg h3]
          exact congrArg _ (ih (dedupKey row :: seen))

/-- Claim C7, amended: deduplication is by the raw
`` `${Recipe_name}_${Diet_type}` `` key, before any normalization.  For
any input containing a row `r1` with its required raw fields present and
a later row `r2` with the same raw key, the cleaned output is exactly
the output with `r2` deleted (so the first occurrence wins and supplies
the values, and the output order is the input order minus skipped rows);
rows whose stored pairs only collide after normalization are not
deduplicated. -/
theorem dedup_raw_key_first_wins (pre : List RawRow) (r1 : RawRow)
    (mid : List RawRow) (r2 : RawRow) (post : List RawRow)
    (hn : r1.Recipe_name ≠ "") (hd : r1.Diet_type ≠ "")
    (hk : dedupKey r1 = dedupKey r2) :
    cleanDataset (pre ++ r1 :: mid ++ r2 :: post) =
      cleanDataset (pre ++ r1 :: mid ++ post) :=
  cleanDatasetGo_dedup pre r1 mid r2 post [] hn hd hk

/-- Witness for the amended C7 at a concrete duplicate pair. -/
theorem dedup_raw_key_first_wins_witness :
    (rowA.Recipe_name ≠ "" ∧ rowA.Diet_type ≠ "" ∧
        dedupKey rowA = dedupKey ⟨"A", "Paleo", none, some 1, some 2, some 3⟩) ∧
      cleanDataset ([] ++ rowA :: [] ++ ⟨"A", "Paleo", none, some 1, some 2, some 3⟩ :: []) =
        cleanDataset ([] ++ rowA :: [] ++ []) :=
  ⟨⟨by with_unfolding_all decide, by with_unfolding_all decide,
      by with_unfolding_all decide⟩,
    dedup_raw_key_first_wins [] rowA [] ⟨"A", "Paleo", none, some 1, some 2, some 3⟩ []
      (by with_unfolding_all decide) (by with_unfolding_all decide)
      (by with_unfolding_all decide)⟩

/-! ## Unparsable numeric bounds -/

/-- Claim C2, counterexample: a present but unparsable `min_protein`
does not behave like an absent one — the `NaN` comparison rejects every
record, so the result differs from the same query without the bound. -/
theorem nan_bound_not_dropped_cex :
    (datasetGET [recQ] qNan).1.data = [] ∧
      (datasetGET [recQ] emptyQuery).1.data = [toView recQ] ∧
      datasetGET [recQ] qNan ≠ datasetGET [recQ] emptyQuery := by
  with_unfolding_all decide

/-- A `min_*` filter with a `NaN` value rejects everything. -/
theorem numGeFilter_nan (f : DietRecord → Rat) (l : List DietRecord) :
    numGeFilter (some none) f l = [] := by
  simp [numGeFilter, jge]

/-- A `max_*` filter with a `NaN` value rejects everything. -/
theorem numLeFilter_nan (f : DietRecord → Rat) (l : List DietRecord) :
    numLeFilter (some none) f l = [] := by
  simp [numLeFilter, jle]

/-- A `min_*` filter maps the empty list to itself. -/
theorem numGeFilter_nil (p : Option ParsedNum) (f : DietRecord → Rat) :
    numGeFilter p f [] = [] := by
  cases p <;> simp [numGeFilter]

/-- A `max_*` filter maps the empty list to itself. -/
theorem numLeFilter_nil (p : Option ParsedNum) (f : DietRecord → Rat) :
    numLeFilter p f [] = [] := by
  cases p <;> simp [numLeFilter]

/-- The sorting step maps the empty list to itself. -/
theorem applySort_nil (sort_by sort_order : Option String) :
    applySort sort_by sort_order [] = [] := by
  unfold applySort
  cases (sort_by.map lowerStr).bind sortFieldMap <;> simp [sortByLe]

/-- Claim C2, amended: a numeric range bound that is present but does
not parse is not dropped; its `NaN` comparison is false for every
record, so the query returns an empty data page and `total_items = 0`
(still no error — the handler returns normally). -/
theorem nan_bound_empties_result (cache : List DietRecord) (q : QueryParams)
    (h : q.min_protein = some none ∨ q.max_protein = some none ∨
      q.min_carbs = some none ∨ q.max_carbs = some none ∨
      q.min_fat = some none ∨ q.max_fat = some none ∨
      q.min_calories = some none ∨ q.max_calories = some none) :
    (datasetGET cache q).1.data = [] ∧ (datasetGET cache q).1.total_items = 0 := by
  have hnum : applyNumFilters q (applyTextFilters q cache) = [] := by
    unfold applyNumFilters
    rcases h with h | h | h | h | h | h | h | h <;>
      simp [h, numGeFilter_nan, numLeFilter_nan, numGeFilter_nil, numLeFilter_nil]
  simp [datasetGET, applyFilters, hnum, applySort_nil]

/-- Witness for the amended C2 at the concrete `NaN` query. -/
theorem nan_bound_empties_result_witness :
    (qNan.min_protein = some none ∨ qNan.max_protein = some none ∨
        qNan.min_carbs = some none ∨ qNan.max_carbs = some none ∨
        qNan.min_fat = some none ∨ qNan.max_fat = some none ∨
        qNan.min_calories = some none ∨ qNan.max_calories = some none) ∧
      ((datasetGET [recQ] qNan).1.data = [] ∧
        (datasetGET [recQ] qNan).1.total_items = 0) :=
  ⟨Or.inl rfl, nan_bound_empties_result [recQ] qNan (Or.inl rfl)⟩

/-! ## The mtime cache of the dataset route -/

/-- Claim C3, counterexample: the cache key is `mtimeMs`, not content.
Re-writing byte-identical content under a new mtime recomputes
(spurious rebuild), and changing the content while keeping the mtime
returns the stale cached dataset (a false negative). -/
theorem mtime_fingerprint_cex :
    (loadData ⟨rowsOne, 2⟩ (loadData ⟨rowsOne, 1⟩ ⟨none, none⟩).2.1).2.2 = true ∧
      (loadData ⟨[], 1⟩ (loadData ⟨rowsOne, 1⟩ ⟨none, none⟩).2.1).1 =
        cleanDataset rowsOne ∧
      cleanDataset rowsOne ≠ cleanDataset [] := by
  with_unfolding_all decide

/-- Claim C3, amended: the cache-validity check of `loadData` is a pure
`mtimeMs` comparison.  The cached dataset is returned (no recomputation)
exactly when a cache is present and its stored time equals the current
`mtimeMs` — regardless of content, so a content change that preserves
`mtimeMs` is served stale, and a rewrite of identical content under a
fresh `mtimeMs` recomputes; whenever recomputation happens the result is
the cleaning of the current content. -/
theorem loadData_mtime_characterization (src : SourceFile) (st : DataCacheState) :
    ((loadData src st).2.2 = false ↔
      st.cachedData.isSome ∧ st.lastFileModTime = some src.mtimeMs) ∧
      ((loadData src st).2.2 = true →
        (loadData src st).1 = cleanDataset src.rows) ∧
      ((loadData src st).2.2 = false →
        st.cachedData = some (loadData src st).1) := by
  unfold loadData
  rcases st with ⟨cd, lt⟩
  rcases cd with _ | d <;> rcases lt with _ | t <;> simp
  by_cases h : t = src.mtimeMs
  · subst h
    simp
  · rw [if_neg h]
    simp [h]

/-- Witness for the amended C3 at a concrete cache hit and a concrete
recomputation. -/
theorem loadData_mtime_characterization_witness :
    (⟨some [], some 5⟩ : DataCacheState).cachedData =
        some (loadData ⟨rowsOne, 5⟩ ⟨some [], some 5⟩).1 ∧
      (loadData ⟨rowsOne, 7⟩ ⟨some [], some 5⟩).1 = cleanDataset rowsOne :=
  ⟨(loadData_mtime_characterization ⟨rowsOne, 5⟩ ⟨some [], some 5⟩).2.2
      (by with_unfolding_all decide),
    (loadData_mtime_characterization ⟨rowsOne, 7⟩ ⟨some [], some 5⟩).2.1
      (by with_unfolding_all decide)⟩

/-! ## The dataset route `GET` mutates the cached array -/

/-- Claim C4: a `GET` with a sort and no filters sorts the cached array
in place — after the request the record order of the cached dataset has
changed.  This evaluates the handler at the failing input. -/
theorem datasetGET_mutates_cache_bug :
    (datasetGET [recQ, recR] qSort).2 = [recR, recQ] ∧
      [recR, recQ] ≠ [recQ, recR] ∧
      (datasetGET [recQ, recR] qSort).2 ≠ [recQ, recR] := by
  with_unfolding_all decide

/-! ## The statistics route: TTL-only cache -/

/-- Claim C5, counterexample: after the source content changes, a
subsequent `get_statistics` call inside the TTL window still returns the
snapshot computed from the old content (and this code path has no
watcher or invalidation that could ever supersede it before expiry). -/
theorem stale_stats_cex :
    (statsGET rowsOne 2000 (statsGET [] 1000 ⟨none, none⟩).2).1 =
        calculateStatistics (loadAndCleanData []) ∧
      (statsGET rowsOne 2000 (statsGET [] 1000 ⟨none, none⟩).2).1.total_recipes = 0 ∧
      (calculateStatistics (loadAndCleanData rowsOne)).total_recipes = 1 := by
  with_unfolding_all decide

/-- Claim C5, amended: the statistics cache is gated only by its 1-hour
TTL.  Within the window (`now - t < CACHE_DURATION`, stored time
truthy) the cached snapshot is returned unchanged no matter what the
source now contains; at or after expiry the call computes the snapshot
entirely from one load of the current source (so a fresh snapshot never
mixes old and new records). -/
theorem statsGET_ttl_characterization (rows : List RawRow) (now : Int)
    (s : Statistics) (t : Int) :
    (t ≠ 0 → now - t < CACHE_DURATION →
        statsGET rows now ⟨some s, some t⟩ = (s, ⟨some s, some t⟩)) ∧
      (CACHE_DURATION ≤ now - t →
        (statsGET rows now ⟨some s, some t⟩).1 =
          calculateStatistics (loadAndCleanData rows)) := by
  constructor
  · intro ht hlt
    simp [statsGET, ht, hlt]
  · intro hge
    have : ¬(t ≠ 0 ∧ now - t < CACHE_DURATION) := by
      rintro ⟨-, hlt⟩
      exact absurd hge (not_le.mpr hlt)
    simp [statsGET, this]

/-- Witness for the amended C5: a hit inside the window and a
recomputation after expiry, at concrete times. -/
theorem statsGET_ttl_characterization_witness :
    statsGET rowsOne 2000 ⟨some (calculateStatistics []), some 1000⟩ =
        (calculateStatistics [], ⟨some (calculateStatistics []), some 1000⟩) ∧
      (statsGET rowsOne 7200000 ⟨some (calculateStatistics []), some 1000⟩).1 =
        calculateStatistics (loadAndCleanData rowsOne) :=
  ⟨(statsGET_ttl_characterization rowsOne 2000 (calculateStatistics []) 1000).1
      (by with_unfolding_all decide) (by with_unfolding_all decide),
    (statsGET_ttl_characterization rowsOne 7200000 (calculateStatistics []) 1000).2
      (by with_unfolding_all decide)⟩

/-! ## Statistics of the empty dataset -/

/-- Claim C6: on the empty dataset `calculateStatistics` does not
produce a fully defined snapshot: the four overall averages are
`0 / 0 = NaN` and the four maxima are `Math.max()` of an empty spread,
`-Infinity` (these serialize to `null` in the JSON response), while the
remaining fields are defined and empty. -/
theorem calculateStatistics_empty_nan_bug :
    (calculateStatistics []).overall_stats.avg_protein = JNum.nan ∧
      (calculateStatistics []).overall_stats.avg_carbs = JNum.nan ∧
      (calculateStatistics []).overall_stats.avg_fat = JNum.nan ∧
      (calculateStatistics []).overall_stats.avg_calories = JNum.nan ∧
      (calculateStatistics []).overall_stats.max_protein = JNum.neginf ∧
      (calculateStatistics []).overall_stats.max_carbs = JNum.neginf ∧
      (calculateStatistics []).overall_stats.max_fat = JNum.neginf ∧
      (calculateStatistics []).overall_stats.max_calories = JNum.neginf ∧
      (calculateStatistics []).total_recipes = 0 ∧
      (calculateStatistics []).diet_types = [] ∧
      (calculateStatistics []).recipes_by_diet = [] ∧
      (calculateStatistics []).top_calorie_recipes = [] := by
  with_unfolding_all decide

/-! ## Pagination of `fetch_dataset` -/

/-- Claim C1: for every query, `fetch_dataset` returns as its data page
the slice `[(page-1)*per_page, page*per_page)` of the filtered+sorted
sequence, with `page` defaulting to `1` and `per_page` clamped to
`[1, 100]` (default `20`); `total_items` is the filtered count before
pagination; in particular `per_page = 100000` is clamped to `100` and
is not an error (the function is total and the bound lands in range). -/
theorem fetch_dataset_paginates (ds : List DietRecord) (q : FetchQuery) :
    (fetch_dataset ds q).data =
        (((filteredSorted ds q.params).drop
              (((fetch_dataset ds q).pagination.page - 1) *
                (fetch_dataset ds q).pagination.per_page).toNat).take
            (fetch_dataset ds q).pagination.per_page.toNat).map toView ∧
      (fetch_dataset ds q).pagination.total_items =
        (filteredSorted ds q.params).length ∧
      1 ≤ (fetch_dataset ds q).pagination.per_page ∧
      (fetch_dataset ds q).pagination.per_page ≤ 100 ∧
      1 ≤ (fetch_dataset ds q).pagination.page ∧
      (q.per_page = none → (fetch_dataset ds q).pagination.per_page = 20) ∧
      (q.page = none → (fetch_dataset ds q).pagination.page = 1) ∧
      (q.per_page = some 100000 → (fetch_dataset ds q).pagination.per_page = 100) := by
  refine ⟨rfl, rfl, le_max_left 1 _, ?_, le_max_left 1 _, ?_, ?_, ?_⟩
  · exact max_le (by norm_num) (min_le_right _ 100)
  · intro h
    simp [fetch_dataset, h]
  · intro h
    simp [fetch_dataset, h]
  · intro h
    simp [fetch_dataset, h]

/-- Witness for C1: a concrete request with `per_page = 100000` and no
`page` gets `per_page = 100` and `page = 1`. -/
theorem fetch_dataset_paginates_witness :
    ((⟨emptyQuery, none, some 100000⟩ : FetchQuery).per_page = some 100000 ∧
        (⟨emptyQuery, none, some 100000⟩ : FetchQuery).page = none) ∧
      (fetch_dataset [] ⟨emptyQuery, none, some 100000⟩).pagination.per_page = 100 ∧
      (fetch_dataset [] ⟨emptyQuery, none, some 100000⟩).pagination.page = 1 :=
  ⟨⟨rfl, rfl⟩,
    (fetch_dataset_paginates [] ⟨emptyQuery, none, some 100000⟩).2.2.2.2.2.2.2 rfl,
    (fetch_dataset_paginates [] ⟨emptyQuery, none, some 100000⟩).2.2.2.2.2.2.1 rfl⟩
